import Mathlib

/-!
Shallow embedding of the mode-control logic of `src/driver.c`
("Off Time Basic Driver", an ATtiny13 flashlight firmware).
C `uint8_t` values are modelled as `Nat` with an explicit `% 256`
at the increments where overflow matters.  The compile-time toggle
`MODE_MEMORY` is not defined in the source, so the EEPROM paths are
absent here as they are absent from the compiled program.
-/

/- ------------------------------------------------------------------
   Voltage monitor (the trailing loop of `main`, src/driver.c 468-486)
   ------------------------------------------------------------------ -/

/-- ADC threshold below which a sample counts as a low-battery reading
(`ADC_LOW = 123` in `src/driver.c`, line 212). -/
def ADC_LOW : Nat := 123

/-- State of the voltage-monitor loop at the end of `main`
(`src/driver.c` lines 468-486): the consecutive-low-sample counter
`lowbatt_cnt` (a `uint8_t`), the PWM duty register `PWM_LVL` (`OCR0B`),
and whether the terminal `sleep_mode` power-down has been entered. -/
structure VState where
  lowbatt_cnt : Nat
  pwm : Nat
  shutdown : Bool
deriving DecidableEq, Repr

/-- One iteration of the voltage-monitor loop body processing a ready
sample `v` (`src/driver.c` lines 469-485): increment the consecutive-low
counter when `v < ADC_LOW`, reset it to 0 otherwise; at exactly 4 lows
write the warning duty `0x05`; at 8 or more lows zero the duty and enter
the power-down sleep, from which no further code executes, so the
shutdown state is absorbing. -/
def vstep (s : VState) (v : Nat) : VState :=
  if s.shutdown then s
  else
    let cnt := if v < ADC_LOW then (s.lowbatt_cnt + 1) % 256 else 0
    let pwm1 := if cnt = 4 then 5 else s.pwm
    if 8 ≤ cnt then { lowbatt_cnt := cnt, pwm := 0, shutdown := true }
    else { lowbatt_cnt := cnt, pwm := pwm1, shutdown := false }

/-- Run the voltage-monitor loop over a stream of ready samples. -/
def vrun (s : VState) : List Nat → VState
  | [] => s
  | v :: vs => vrun (vstep s v) vs

/-- The monitor state on entering the loop: counter `lowbatt_cnt = 0`
(line 417) and the duty `d` set by the dispatched mode. -/
def vinit (d : Nat) : VState := ⟨0, d, false⟩

/- ------------------------------------------------------------------
   Battery check (battcheck, src/driver.c 327-353)
   ------------------------------------------------------------------ -/

/-- The `voltage_blinks` threshold table (`src/driver.c` lines 215-221):
`ADC_0 = 139`, `ADC_25 = 154`, `ADC_50 = 164`, `ADC_75 = 175`,
`ADC_100 = 185`. -/
def voltage_blinks : List Nat := [139, 154, 164, 175, 185]

/-- The blink count computed by `battcheck` (`src/driver.c` lines
341-342): the number of table entries strictly exceeded by the voltage
sample (`voltage > voltage_blinks[i]`). -/
def battcheck_blinks (voltage : Nat) : Nat :=
  voltage_blinks.countP (fun t => decide (t < voltage))

/- ------------------------------------------------------------------
   Boot-time press classification (main, src/driver.c 356-395)
   ------------------------------------------------------------------ -/

/-- The `.noinit` SRAM bytes of `src/driver.c` (lines 157-167):
`noinit_decay`, `noinit_mode`, `noinit_lvl`, `noinit_short`,
`noinit_strobe`, `noinit_strobe_mode`, each a `uint8_t`. -/
structure Noinit where
  decay : Nat
  mode : Nat
  lvl : Nat
  short : Nat
  strobe : Nat
  strobe_mode : Nat
deriving DecidableEq, Repr

/-- The press-classification branch of `main` (`src/driver.c` lines
358-375): a nonzero decay flag means the light was off long enough that
all noinit data is invalid, so everything resets to zero (`MODE_MEMORY`
is not defined, so no EEPROM reload follows); a still-zero decay flag is
a short press, incrementing `noinit_mode` and `noinit_short` with
`uint8_t` arithmetic. -/
def classifyBranch (s : Noinit) : Noinit :=
  if s.decay ≠ 0 then
    { s with mode := 0, short := 0, strobe := 0, strobe_mode := 0, lvl := 0 }
  else
    { s with mode := (s.mode + 1) % 256, short := (s.short + 1) % 256 }

/-- The whole boot-time classification of `main` (`src/driver.c` lines
358-395), in program order: the classification branch, the
unconditional `noinit_decay = 0` (line 377), the mode wraparound
(lines 381-384), the hidden-strobe latch (lines 386-390), and the
strobe-mode wraparound (lines 392-395). -/
def classify (s : Noinit) : Noinit :=
  let s1 := classifyBranch s
  let s2 := { s1 with decay := 0 }
  let s3 := if s2.mode > 6 then { s2 with mode := 0 } else s2
  let s4 := if s3.short > 2 ∧ s3.strobe = 0 then { s3 with strobe := 1, strobe_mode := 0 } else s3
  let s5 := if s4.strobe_mode > 0 then { s4 with strobe_mode := 0 } else s4
  s5

/-- One boot: the power-off interval leaves the decay byte at `d`
(zero iff the interruption was short), then `main` classifies. -/
def boot (d : Nat) (s : Noinit) : Noinit := classify { s with decay := d }

/-- A sequence of boots, given the decay byte observed at each one. -/
def runBoots (s : Noinit) : List Nat → Noinit
  | [] => s
  | d :: ds => runBoots (boot d s) ds

/- ------------------------------------------------------------------
   Ramp behavior (ramp, src/driver.c 230-246) and the mode dispatch
   switch of main (src/driver.c 427-454)
   ------------------------------------------------------------------ -/

/-- The `SQUARED` ramp lookup table selected at `src/driver.c` line 201
(values from line 193); 51 entries. -/
def ramp_LUT : List Nat :=
  [4, 4, 4, 5, 6, 7, 8, 9, 10, 12, 14, 16, 18, 21, 24, 27, 30, 33, 37,
   40, 44, 48, 53, 57, 62, 67, 72, 77, 83, 88, 94, 100, 107, 113, 120,
   127, 134, 141, 149, 157, 165, 173, 181, 190, 198, 207, 216, 226,
   235, 245, 255]

/-- Output state during `ramp` (`src/driver.c` lines 230-246): the PWM
duty register and the persisted `noinit_lvl` byte. -/
structure RampState where
  pwm : Nat
  lvl : Nat
deriving DecidableEq, Repr

/-- One ramp step (`src/driver.c` lines 235-236 and 240-241): write the
looked-up value `v` to the duty register, then persist the register into
`noinit_lvl`. -/
def rampStep (s : RampState) (v : Nat) : RampState :=
  let _ := s
  { pwm := v, lvl := v }

/-- LUT index written at step `n` of `ramp`: the outer loop walks
indices 0..50 forwards (51 steps) then 50 down to 1 (50 steps), so the
pattern has period 101. -/
def rampIdx (n : Nat) : Nat :=
  if n % 101 < 51 then n % 101 else 101 - n % 101

/-- The sequence of duty values `ramp` writes in its first `n` steps. -/
def rampWrites (n : Nat) : List Nat :=
  (List.range n).map (fun k => ramp_LUT.getD (rampIdx k) 0)

/-- The regular-mode dispatch switch of `main` (`src/driver.c` lines
427-454): the initial duty each fixed-level case writes to `PWM_LVL`,
as a function of the classified mode and of the persisted `noinit_lvl`
byte that is in scope there.  No case reads `noinit_lvl`: the former
`PWM_LVL = noinit_lvl` assignment in case 5 is commented out (line 449).
Cases 4-6 (battcheck, pwm_strobe, ramp) enter non-returning loops
instead of writing a fixed duty, hence `none`. -/
def modeDuty (mode lvl : Nat) : Option Nat :=
  let _ := lvl
  match mode with
  | 0 => some 0x05
  | 1 => some 0x10
  | 2 => some 0x40
  | 3 => some 0xFF
  | _ => none

/- ------------------------------------------------------------------
   Action trace of main after classification (src/driver.c 397-454)
   ------------------------------------------------------------------ -/

/-- Hardware-visible actions of `main` after classification
(`src/driver.c` lines 397-454). -/
inductive Ev where
  /-- line 398: `DDRB` output-pin setup -/
  | setDDRB
  /-- line 406: the call to `strobe()`, which never returns -/
  | enterStrobe
  /-- lines 412-413: the `TCCR0A`/`TCCR0B` PWM timer configuration -/
  | pwmTimerInit
  /-- line 415: `PWM_LVL = 0` -/
  | pwmLvlZero
  /-- line 419: `ADC_on()` -/
  | adcOn
  /-- line 424: the 25 ms settle delay -/
  | delay25
  /-- line 425: `noinit_short = 0` -/
  | shortReset
  /-- line 427: the regular-mode switch on `noinit_mode = m` -/
  | modeSwitch (m : Nat)
deriving DecidableEq, Repr

/-- The action trace of `main` from line 398 of `src/driver.c` onward,
given the post-classification state `s`.  When the strobe flag is set
and the strobe-mode switch hits its only case 0, `strobe()` never
returns and the trace ends there; a strobe mode other than 0 would fall
through the switch into the PWM setup. -/
def mainTraceAfter (s : Noinit) : List Ev :=
  if s.strobe ≠ 0 ∧ s.strobe_mode = 0 then
    [Ev.setDDRB, Ev.enterStrobe]
  else
    [Ev.setDDRB, Ev.pwmTimerInit, Ev.pwmLvlZero, Ev.adcOn, Ev.delay25,
     Ev.shortReset, Ev.modeSwitch s.mode]

/-- The action trace of a whole boot of `main` for pre-boot noinit
state `s`: classification followed by the post-classification actions. -/
def mainTrace (s : Noinit) : List Ev := mainTraceAfter (classify s)

/- ------------------------------------------------------------------
   Helper lemmas
   ------------------------------------------------------------------ -/

/-- The power-down sleep is absorbing: once shut down, no sample stream
changes the state. -/
theorem vrun_shutdown (s : VState) (vs : List Nat) (h : s.shutdown = true) :
    vrun s vs = s := by
  induction vs with
  | nil => rfl
  | cons v vs ih =>
    simp only [vrun, vstep, h, if_true]
    exact ih

/- ------------------------------------------------------------------
   C2 — battcheck blink counts
   ------------------------------------------------------------------ -/

/-- C2 is false as stated: at sample value 140 the code counts one
threshold strictly exceeded (139 < 140), so the blink count is 1, not
the claimed 0. -/
theorem C2_counterexample :
    battcheck_blinks 140 = 1 ∧ battcheck_blinks 140 ≠ 0 := by decide

/-- C2 (amended): the battery-check blink computation, counting how many
entries of the threshold table {139, 154, 164, 175, 185} are strictly
exceeded by the voltage sample, yields blink counts {0, 1, 1, 2, 3, 4, 5}
for the sample values {100, 140, 150, 160, 170, 180, 190} respectively. -/
theorem C2_battcheck_blink_table :
    battcheck_blinks 100 = 0 ∧ battcheck_blinks 140 = 1 ∧
    battcheck_blinks 150 = 1 ∧ battcheck_blinks 160 = 2 ∧
    battcheck_blinks 170 = 3 ∧ battcheck_blinks 180 = 4 ∧
    battcheck_blinks 190 = 5 := by decide

/- ------------------------------------------------------------------
   C1 — voltage-monitor state machine
   ------------------------------------------------------------------ -/

/-- C1: starting the voltage-monitor loop at any mode duty `d`, a stream
of exactly 4 consecutive samples below `ADC_LOW` drops the duty to the
warning level `0x05` without shutting down; a 5th consecutive low sample
still does not shut down; the 8th consecutive low sample zeroes the duty
and enters the terminal power-down state, which no further input
changes; and a non-low sample arriving before the 8th resets the
consecutive-low counter to 0. -/
theorem C1_voltage_monitor_state_machine
    (d lo hi : Nat) (vs : List Nat) (k : Nat)
    (hlo : lo < ADC_LOW) (hhi : ¬ hi < ADC_LOW) (hk : k < 7) :
    (vrun (vinit d) (List.replicate 4 lo)).pwm = 5 ∧
    (vrun (vinit d) (List.replicate 4 lo)).shutdown = false ∧
    (vrun (vinit d) (List.replicate 5 lo)).shutdown = false ∧
    (vrun (vinit d) (List.replicate 8 lo)).pwm = 0 ∧
    (vrun (vinit d) (List.replicate 8 lo)).shutdown = true ∧
    vrun (vrun (vinit d) (List.replicate 8 lo)) vs
      = vrun (vinit d) (List.replicate 8 lo) ∧
    (vrun (vinit d) (List.replicate k lo ++ [hi])).lowbatt_cnt = 0 := by
  have h4 : List.replicate 4 lo = [lo, lo, lo, lo] := rfl
  have h5 : List.replicate 5 lo = [lo, lo, lo, lo, lo] := rfl
  have h8 : List.replicate 8 lo = [lo, lo, lo, lo, lo, lo, lo, lo] := rfl
  have habs : (vrun (vinit d) (List.replicate 8 lo)).shutdown = true := by
    rw [h8]; simp [vrun, vstep, vinit, hlo]
  refine ⟨?_, ?_, ?_, ?_, habs, vrun_shutdown _ vs habs, ?_⟩
  · rw [h4]; simp [vrun, vstep, vinit, hlo]
  · rw [h4]; simp [vrun, vstep, vinit, hlo]
  · rw [h5]; simp [vrun, vstep, vinit, hlo]
  · rw [h8]; simp [vrun, vstep, vinit, hlo]
  · interval_cases k <;> simp [vrun, vstep, vinit, hlo, hhi]

/-- Witness for C1 at duty 255, low sample 100, non-low sample 200,
tail stream [100, 200], and 3 lows before the non-low sample. -/
theorem C1_voltage_monitor_state_machine_witness :
    (vrun (vinit 255) (List.replicate 4 100)).pwm = 5 ∧
    (vrun (vinit 255) (List.replicate 4 100)).shutdown = false ∧
    (vrun (vinit 255) (List.replicate 5 100)).shutdown = false ∧
    (vrun (vinit 255) (List.replicate 8 100)).pwm = 0 ∧
    (vrun (vinit 255) (List.replicate 8 100)).shutdown = true ∧
    vrun (vrun (vinit 255) (List.replicate 8 100)) [100, 200]
      = vrun (vinit 255) (List.replicate 8 100) ∧
    (vrun (vinit 255) (List.replicate 3 100 ++ [200])).lowbatt_cnt = 0 :=
  C1_voltage_monitor_state_machine 255 100 200 [100, 200] 3
    (by decide) (by decide) (by decide)

/- ------------------------------------------------------------------
   C10 — warning duty is not restored by a recovering sample
   ------------------------------------------------------------------ -/

/-- From any live monitor state whose duty is the warning level 5, every
sample stream leaves the duty at 5 while live, or at 0 once the terminal
shutdown has occurred; the loop body never writes any other duty. -/
theorem vrun_warn_duty (s : VState) (vs : List Nat)
    (hl : s.shutdown = false) (hp : s.pwm = 5) :
    ((vrun s vs).pwm = 5 ∧ (vrun s vs).shutdown = false) ∨
    ((vrun s vs).pwm = 0 ∧ (vrun s vs).shutdown = true) := by
  induction vs generalizing s with
  | nil => exact Or.inl ⟨hp, hl⟩
  | cons v vs ih =>
    rw [vrun]
    by_cases hv : v < ADC_LOW
    · by_cases h8 : 8 ≤ (s.lowbatt_cnt + 1) % 256
      · have hs : vstep s v = ⟨(s.lowbatt_cnt + 1) % 256, 0, true⟩ := by
          simp [vstep, hl, hv, h8]
        rw [hs, vrun_shutdown _ vs rfl]
        exact Or.inr ⟨rfl, rfl⟩
      · have hs : vstep s v = ⟨(s.lowbatt_cnt + 1) % 256,
            if (s.lowbatt_cnt + 1) % 256 = 4 then 5 else s.pwm, false⟩ := by
          simp [vstep, hl, hv, h8]
        rw [hs]
        refine ih _ rfl ?_
        by_cases h4 : (s.lowbatt_cnt + 1) % 256 = 4 <;> simp [h4, hp]
    · have hs : vstep s v = ⟨0, s.pwm, false⟩ := by
        simp [vstep, hl, hv]
      rw [hs]
      exact ih _ rfl hp

/-- C10: after the warning step (4 consecutive low samples have dropped
the duty to `0x05`), a subsequent non-low sample resets the
consecutive-low counter to 0 but leaves the duty register untouched at
the warning level; and for the rest of the stream the duty stays at the
warning level while the device is live (dropping only to 0 at the
terminal shutdown) — the pre-warning mode duty `d` is never restored. -/
theorem C10_warning_duty_not_restored
    (d lo hi : Nat) (vs : List Nat)
    (hlo : lo < ADC_LOW) (hhi : ¬ hi < ADC_LOW) :
    vstep (vrun (vinit d) (List.replicate 4 lo)) hi = ⟨0, 5, false⟩ ∧
    (((vrun (vstep (vrun (vinit d) (List.replicate 4 lo)) hi) vs).pwm = 5 ∧
      (vrun (vstep (vrun (vinit d) (List.replicate 4 lo)) hi) vs).shutdown = false) ∨
     ((vrun (vstep (vrun (vinit d) (List.replicate 4 lo)) hi) vs).pwm = 0 ∧
      (vrun (vstep (vrun (vinit d) (List.replicate 4 lo)) hi) vs).shutdown = true)) := by
  have h4 : List.replicate 4 lo = [lo, lo, lo, lo] := rfl
  have hw : vrun (vinit d) (List.replicate 4 lo) = ⟨4, 5, false⟩ := by
    rw [h4]; simp [vrun, vstep, vinit, hlo]
  have hstep : vstep (vrun (vinit d) (List.replicate 4 lo)) hi = ⟨0, 5, false⟩ := by
    rw [hw]; simp [vstep, hhi]
  refine ⟨hstep, ?_⟩
  rw [hstep]
  exact vrun_warn_duty ⟨0, 5, false⟩ vs rfl rfl

/-- Witness for C10 at duty 255, low sample 100, non-low sample 200, and
tail stream [100]. -/
theorem C10_warning_duty_not_restored_witness :
    vstep (vrun (vinit 255) (List.replicate 4 100)) 200 = ⟨0, 5, false⟩ ∧
    (((vrun (vstep (vrun (vinit 255) (List.replicate 4 100)) 200) [100]).pwm = 5 ∧
      (vrun (vstep (vrun (vinit 255) (List.replicate 4 100)) 200) [100]).shutdown = false) ∨
     ((vrun (vstep (vrun (vinit 255) (List.replicate 4 100)) 200) [100]).pwm = 0 ∧
      (vrun (vstep (vrun (vinit 255) (List.replicate 4 100)) 200) [100]).shutdown = true)) :=
  C10_warning_duty_not_restored 255 100 200 [100] (by decide) (by decide)

/- ------------------------------------------------------------------
   Classification helper lemmas
   ------------------------------------------------------------------ -/

/-- A boot with a nonzero decay flag resets every noinit byte to zero:
the reset branch zeroes all five data bytes, line 377 zeroes the decay
flag itself, and the wraparound and latch steps then all see zeros. -/
theorem classify_longOff (s : Noinit) (h : s.decay ≠ 0) :
    classify s = ⟨0, 0, 0, 0, 0, 0⟩ := by
  simp [classify, classifyBranch, h]

/-- After any boot the decay flag is zero (line 377 runs on both
branches and no later step writes it). -/
theorem classify_decay (s : Noinit) : (classify s).decay = 0 := by
  simp only [classify, classifyBranch]
  split_ifs <;> rfl

/-- After any boot the mode index is at most 6: the wraparound at lines
381-384 clamps every larger value and no later step writes the mode. -/
theorem classify_mode_le (s : Noinit) : (classify s).mode ≤ 6 := by
  simp only [classify, classifyBranch]
  split_ifs <;> simp_all

/-- After any boot the strobe-mode byte is zero: the long-off branch and
the latch write 0, and the wraparound at lines 392-395 clamps every
remaining nonzero value. -/
theorem classify_strobe_mode0 (s : Noinit) : (classify s).strobe_mode = 0 := by
  simp only [classify, classifyBranch]
  split_ifs <;> simp_all

/-- A short-off boot never clears a set strobe latch: the short branch
does not touch `noinit_strobe` and the latch only writes 1. -/
theorem boot_short_strobe_keep (s : Noinit) (h : s.strobe = 1) :
    (boot 0 s).strobe = 1 := by
  simp only [boot, classify, classifyBranch]
  split_ifs <;> simp_all

/-- Over any run of short-off boots a set strobe latch stays set. -/
theorem runBoots_strobe_keep (s : Noinit) (ds : List Nat)
    (h : s.strobe = 1) (hds : ∀ x ∈ ds, x = 0) :
    (runBoots s ds).strobe = 1 := by
  induction ds generalizing s with
  | nil => exact h
  | cons d ds ih =>
    have hd0 : d = 0 := hds d (by simp)
    rw [runBoots, hd0]
    exact ih _ (boot_short_strobe_keep s h) (fun x hx => hds x (by simp [hx]))

/- ------------------------------------------------------------------
   C3 — fresh-session reset completeness
   ------------------------------------------------------------------ -/

/-- C3: for every prior state of the non-initialized bytes, a boot
classified as long-off (decay flag nonzero) resets `noinit_mode`,
`noinit_short`, `noinit_strobe`, `noinit_strobe_mode` and `noinit_lvl`
all to zero. -/
theorem C3_long_off_resets_all (s : Noinit) (h : s.decay ≠ 0) :
    classify s = ⟨0, 0, 0, 0, 0, 0⟩ :=
  classify_longOff s h

/-- Witness for C3 at the prior state decay 7, mode 3, lvl 9, short 4,
strobe 1, strobe mode 2. -/
theorem C3_long_off_resets_all_witness :
    (Noinit.decay ⟨7, 3, 9, 4, 1, 2⟩ ≠ 0) ∧
    classify ⟨7, 3, 9, 4, 1, 2⟩ = ⟨0, 0, 0, 0, 0, 0⟩ :=
  ⟨by decide, C3_long_off_resets_all ⟨7, 3, 9, 4, 1, 2⟩ (by decide)⟩

/- ------------------------------------------------------------------
   C4 — mode index range and wraparound
   ------------------------------------------------------------------ -/

/-- C4: after boot classification and the wraparound check,
`noinit_mode` is always in [0, 6], for every prior value of the byte;
and a short press at the last valid index 6 wraps the mode to 0. -/
theorem C4_mode_range_and_wraparound (s : Noinit) :
    (classify s).mode ≤ 6 ∧
    (s.decay = 0 → s.mode = 6 → (classify s).mode = 0) := by
  refine ⟨classify_mode_le s, fun hd hm => ?_⟩
  simp only [classify, classifyBranch, hd, hm]
  split_ifs <;> simp_all

/-- Witness for C4 at the prior state decay 0, mode 6, lvl 0, short 0,
strobe 0, strobe mode 0. -/
theorem C4_mode_range_and_wraparound_witness :
    (classify ⟨0, 6, 0, 0, 0, 0⟩).mode ≤ 6 ∧
    (Noinit.decay ⟨0, 6, 0, 0, 0, 0⟩ = 0 →
      Noinit.mode ⟨0, 6, 0, 0, 0, 0⟩ = 6 →
      (classify ⟨0, 6, 0, 0, 0, 0⟩).mode = 0) :=
  C4_mode_range_and_wraparound ⟨0, 6, 0, 0, 0, 0⟩

/- ------------------------------------------------------------------
   C5 — hidden-mode latch monotonicity
   ------------------------------------------------------------------ -/

/-- C5: in a session where the short-press counter has exceeded 2 and
the hidden-mode latch `noinit_strobe` is set, the latch stays set across
any sequence of boots classified as short-off (decay byte 0), and a boot
classified as long-off (decay byte nonzero) clears it back to 0. -/
theorem C5_latch_monotone (s : Noinit) (ds : List Nat) (d : Nat)
    (_hshort : s.short > 2) (hstrobe : s.strobe = 1)
    (hds : ∀ x ∈ ds, x = 0) (hd : d ≠ 0) :
    (runBoots s ds).strobe = 1 ∧ (boot d s).strobe = 0 := by
  refine ⟨runBoots_strobe_keep s ds hstrobe hds, ?_⟩
  show (classify { s with decay := d }).strobe = 0
  rw [classify_longOff _ hd]

/-- Witness for C5 at the state short 3, strobe 1, three further
short-off boots, and a long-off boot with decay byte 9. -/
theorem C5_latch_monotone_witness :
    (Noinit.short ⟨0, 4, 0, 3, 1, 0⟩ > 2) ∧
    (runBoots ⟨0, 4, 0, 3, 1, 0⟩ [0, 0, 0]).strobe = 1 ∧
    (boot 9 ⟨0, 4, 0, 3, 1, 0⟩).strobe = 0 :=
  ⟨by decide,
   C5_latch_monotone ⟨0, 4, 0, 3, 1, 0⟩ [0, 0, 0] 9
     (by decide) (by decide) (by decide) (by decide)⟩

/- ------------------------------------------------------------------
   C6 — short-off branch effects
   ------------------------------------------------------------------ -/

/-- C6: a boot classified as short-off (decay byte still zero) takes the
mode-cycle branch, which increments `noinit_mode` and `noinit_short` by
one (as `uint8_t` bytes, so modulo 256) and leaves `noinit_strobe`,
`noinit_strobe_mode` (and `noinit_lvl`) at their pre-boot values; the
latch and wraparound steps are applied separately afterwards. -/
theorem C6_short_branch_effects (s : Noinit) (h : s.decay = 0) :
    (classifyBranch s).mode = (s.mode + 1) % 256 ∧
    (classifyBranch s).short = (s.short + 1) % 256 ∧
    (classifyBranch s).strobe = s.strobe ∧
    (classifyBranch s).strobe_mode = s.strobe_mode ∧
    (classifyBranch s).lvl = s.lvl := by
  simp [classifyBranch, h]

/-- Witness for C6 at the prior state decay 0, mode 2, lvl 7, short 1,
strobe 1, strobe mode 0. -/
theorem C6_short_branch_effects_witness :
    (classifyBranch ⟨0, 2, 7, 1, 1, 0⟩).mode = (2 + 1) % 256 ∧
    (classifyBranch ⟨0, 2, 7, 1, 1, 0⟩).short = (1 + 1) % 256 ∧
    (classifyBranch ⟨0, 2, 7, 1, 1, 0⟩).strobe = Noinit.strobe ⟨0, 2, 7, 1, 1, 0⟩ ∧
    (classifyBranch ⟨0, 2, 7, 1, 1, 0⟩).strobe_mode = Noinit.strobe_mode ⟨0, 2, 7, 1, 1, 0⟩ ∧
    (classifyBranch ⟨0, 2, 7, 1, 1, 0⟩).lvl = Noinit.lvl ⟨0, 2, 7, 1, 1, 0⟩ :=
  C6_short_branch_effects ⟨0, 2, 7, 1, 1, 0⟩ (by decide)

/- ------------------------------------------------------------------
   C7 — decay flag always cleared; zero flag means short-off
   ------------------------------------------------------------------ -/

/-- C7: after every boot's classification the decay flag is exactly
zero, on both branches; and a boot that starts with the decay flag still
zero always takes the mode-cycle (short-off) branch, incrementing the
mode and short-press bytes. -/
theorem C7_decay_cleared_and_zero_is_short (s : Noinit) :
    (classify s).decay = 0 ∧
    (s.decay = 0 →
      classifyBranch s =
        { s with mode := (s.mode + 1) % 256, short := (s.short + 1) % 256 }) := by
  refine ⟨classify_decay s, fun h => ?_⟩
  simp [classifyBranch, h]

/-- Witness for C7 at the prior state decay 0, mode 5, lvl 0, short 2,
strobe 0, strobe mode 0. -/
theorem C7_decay_cleared_and_zero_is_short_witness :
    (classify ⟨0, 5, 0, 2, 0, 0⟩).decay = 0 ∧
    (Noinit.decay ⟨0, 5, 0, 2, 0, 0⟩ = 0 →
      classifyBranch ⟨0, 5, 0, 2, 0, 0⟩ = ⟨0, (5 + 1) % 256, 0, (2 + 1) % 256, 0, 0⟩) :=
  C7_decay_cleared_and_zero_is_short ⟨0, 5, 0, 2, 0, 0⟩

/- ------------------------------------------------------------------
   C8 — ramp level persistence and the (absent) resume behavior
   ------------------------------------------------------------------ -/

/-- Folding the ramp step over a nonempty write sequence leaves the
persisted level equal to the duty register: each step writes the duty
and immediately copies it into `noinit_lvl`. -/
theorem foldl_rampStep_lvl (s : RampState) (v : Nat) (ws : List Nat) :
    ((v :: ws).foldl rampStep s).lvl = ((v :: ws).foldl rampStep s).pwm := by
  induction ws generalizing s v with
  | nil => rfl
  | cons w ws ih =>
    rw [List.foldl_cons]
    exact ih _ _

/-- C8 fails as stated: with the pre-boot state in ramp mode (mode 6)
and the persisted level at 245 (a duty the ramp reaches), a short-off
boot wraps the mode to 0 and the dispatch writes the fixed duty 0x05,
not the persisted 245 — the `PWM_LVL = noinit_lvl` resume assignment is
commented out at `src/driver.c` line 449. -/
theorem C8_counterexample :
    (classify ⟨0, 6, 245, 0, 0, 0⟩).mode = 0 ∧
    (classify ⟨0, 6, 245, 0, 0, 0⟩).lvl = 245 ∧
    modeDuty (classify ⟨0, 6, 245, 0, 0, 0⟩).mode
      (classify ⟨0, 6, 245, 0, 0, 0⟩).lvl = some 5 ∧
    modeDuty (classify ⟨0, 6, 245, 0, 0, 0⟩).mode
      (classify ⟨0, 6, 245, 0, 0, 0⟩).lvl ≠ some 245 := by decide

/-- C8 (amended): the last PWM duty value reached by the ramp behavior
is persisted into `noinit_lvl` after every ramp step; however, on the
next boot following a short press during ramping the output does not
resume from that persisted level: the mode wraps from 6 to 0 and the
dispatch writes the fixed duty 0x05 whatever the persisted byte holds
(the persisted level is carried through the boot unread). -/
theorem C8_ramp_persists_but_no_resume
    (s0 : RampState) (n : Nat) (s : Noinit) (l : Nat)
    (hn : 0 < n) (hd : s.decay = 0) (hm : s.mode = 6) :
    ((rampWrites n).foldl rampStep s0).lvl =
      ((rampWrites n).foldl rampStep s0).pwm ∧
    (classify s).mode = 0 ∧
    (classify s).lvl = s.lvl ∧
    modeDuty (classify s).mode l = some 5 := by
  have hne : rampWrites n ≠ [] := by
    have hlen : (rampWrites n).length = n := by simp [rampWrites]
    intro hnil
    rw [hnil] at hlen
    simp at hlen
    omega
  obtain ⟨v, ws, hvw⟩ := List.exists_cons_of_ne_nil hne
  have hmode : (classify s).mode = 0 := by
    simp only [classify, classifyBranch, hd, hm]
    split_ifs <;> simp_all
  have hlvl : (classify s).lvl = s.lvl := by
    simp only [classify, classifyBranch, hd]
    split_ifs <;> simp_all
  refine ⟨?_, hmode, hlvl, ?_⟩
  · rw [hvw]
    exact foldl_rampStep_lvl s0 v ws
  · rw [hmode]
    rfl

/-- Witness for the amended C8 at 7 ramp steps from a zero ramp state,
the pre-boot noinit state decay 0, mode 6, lvl 120, short 0, strobe 0,
strobe mode 0, and persisted byte 120 at the dispatch. -/
theorem C8_ramp_persists_but_no_resume_witness :
    ((rampWrites 7).foldl rampStep ⟨0, 0⟩).lvl =
      ((rampWrites 7).foldl rampStep ⟨0, 0⟩).pwm ∧
    (classify ⟨0, 6, 120, 0, 0, 0⟩).mode = 0 ∧
    (classify ⟨0, 6, 120, 0, 0, 0⟩).lvl = Noinit.lvl ⟨0, 6, 120, 0, 0, 0⟩ ∧
    modeDuty (classify ⟨0, 6, 120, 0, 0, 0⟩).mode 120 = some 5 :=
  C8_ramp_persists_but_no_resume ⟨0, 0⟩ 7 ⟨0, 6, 120, 0, 0, 0⟩ 120
    (by decide) (by decide) (by decide)

/- ------------------------------------------------------------------
   C9 — strobe dispatch happens before PWM timer setup
   ------------------------------------------------------------------ -/

/-- C9: whenever the direct pin-toggling strobe behavior is dispatched
(the classified strobe flag is nonzero), `strobe()` is entered and the
PWM timer configuration registers are never written in the boot's action
trace — the extended-mode dispatch sits before the `TCCR0A`/`TCCR0B`
writes and `strobe()` never returns, so PWM generation is never active
while the pin is toggled directly. -/
theorem C9_strobe_runs_without_pwm (s : Noinit)
    (h : (classify s).strobe ≠ 0) :
    Ev.enterStrobe ∈ mainTrace s ∧ Ev.pwmTimerInit ∉ mainTrace s := by
  have hm := classify_strobe_mode0 s
  unfold mainTrace mainTraceAfter
  rw [if_pos ⟨h, hm⟩]
  exact ⟨by decide, by decide⟩

/-- Witness for C9 at the pre-boot state decay 0, mode 0, lvl 0,
short 5, strobe 0, strobe mode 0, whose boot latches the strobe flag. -/
theorem C9_strobe_runs_without_pwm_witness :
    (classify ⟨0, 0, 0, 5, 0, 0⟩).strobe ≠ 0 ∧
    (Ev.enterStrobe ∈ mainTrace ⟨0, 0, 0, 5, 0, 0⟩ ∧
     Ev.pwmTimerInit ∉ mainTrace ⟨0, 0, 0, 5, 0, 0⟩) :=
  ⟨by decide, C9_strobe_runs_without_pwm ⟨0, 0, 0, 5, 0, 0⟩ (by decide)⟩
